import Mathlib

set_option linter.unusedVariables false

/-! Verification of the moltbot subagent-stop feature and TUI event
reconciler.  Definitions are shallow embeddings of the TypeScript
sources; components whose implementation files are absent from the
repository snapshot (only their tests and documentation are present)
are modelled from the specification, as marked in their doc comments. -/

namespace Moltbot

/-- One registered delegated run, as stored in the in-memory subagent
registry (`SubagentRunRecord` in `src/agents/subagent-registry.ts`,
shape taken from the registry and abort tests). -/
structure SubagentRunRecord where
  runId : String
  childSessionKey : String
  requesterSessionKey : String
  requesterDisplayKey : String
  task : String
  cleanup : String
  createdAt : Nat
  endedAt : Option Nat
deriving DecidableEq

/-- Result shape returned by the cancellation coordinator
(`{stopped, reason?}`). Reasons are the literal strings used by the
code and its tests. -/
structure StopResult where
  stopped : Bool
  reason : Option String
deriving DecidableEq

/-- Side effects the coordinator performs on external collaborators:
clearing the child session's queued inbound work, and signalling the
execution-engine abort primitive with the engine session id resolved
from the session store (absent when the store has no entry). -/
inductive StopEffect where
  | clearQueues (childSessionKey : String)
  | abortRun (engineSessionId : Option String)
deriving DecidableEq

/-- Registry state: mapping from run id to record (the in-memory
`subagentRuns` Map). -/
def Registry : Type := String → Option SubagentRunRecord

/-- Modelled from the spec: registry lookup `getSubagentRun(runId)` —
pure lookup by run id, no side effects. -/
def getSubagentRun (reg : Registry) (runId : String) : Option SubagentRunRecord :=
  reg runId

/-- Modelled from the spec: mark the run ended with the given
timestamp; idempotent, first write wins (`markEnded` contract in the
spec's Run Registry section). -/
def markEnded (reg : Registry) (runId : String) (now : Nat) : Registry :=
  fun k =>
    if k = runId then
      (reg k).map (fun r => if r.endedAt = none then { r with endedAt := some now } else r)
    else reg k

/-- Outcome of one coordinator call: the typed result, the ordered
list of collaborator side effects performed, and the registry state
afterwards. -/
structure StopOutcome where
  result : StopResult
  effects : List StopEffect
  registry : Registry

/-- Modelled from the spec: `stopSubagentByRunId` in
`src/auto-reply/reply/abort.ts` (file absent from the snapshot; the
algorithm is given step by step in the spec and in `agentstop.md`):
look up the run (absent → `not_found`); `endedAt` set →
`already_ended`; requester provided and mismatched → `forbidden`;
empty `childSessionKey` → `no_child_session`; otherwise clear the
child session's queues, resolve the engine session id from the store,
signal abort with it, mark the run ended at the current time, and
return `stopped: true`.  Rejection paths perform no side effects. -/
def stopSubagentByRunId (reg : Registry) (store : String → Option String)
    (now : Nat) (runId : String) (requesterSessionKey : Option String) : StopOutcome :=
  match getSubagentRun reg runId with
  | none => ⟨⟨false, some "not_found"⟩, [], reg⟩
  | some r =>
    if r.endedAt ≠ none then
      ⟨⟨false, some "already_ended"⟩, [], reg⟩
    else if (match requesterSessionKey with
             | some k => decide (k ≠ r.requesterSessionKey)
             | none => false) then
      ⟨⟨false, some "forbidden"⟩, [], reg⟩
    else if r.childSessionKey = "" then
      ⟨⟨false, some "no_child_session"⟩, [], reg⟩
    else
      ⟨⟨true, none⟩,
       [StopEffect.clearQueues r.childSessionKey,
        StopEffect.abortRun (store r.childSessionKey)],
       markEnded reg runId now⟩

/-- Payload returned by the `sessions_stop` tool's `execute`
(`jsonResult({status, runId?, error?})` in
`src/agents/tools/sessions-stop-tool.ts`). -/
structure ToolPayload where
  status : String
  runId : Option String
  error : Option String
deriving DecidableEq

/-- One recorded invocation of `stopSubagentByRunId` made by an entry
adapter: the `runId` argument and the optional `requesterSessionKey`
argument it passed. -/
structure StopCall where
  runId : String
  requesterSessionKey : Option String
deriving DecidableEq

/-- Embedding of the `execute` body of `createSessionsStopTool`
(source present in the repository snapshot, appended to
`abort.stop-by-runid.test.ts`).  `agentSessionKey` is the optional
`opts.agentSessionKey` the tool was created with; `runIdParam` is the
string value of the `runId` parameter when present
(`readStringParam`); `resolveKey` stands for
`resolveInternalSessionKey` (external helper, kept abstract); `stop`
stands for the injected coordinator, returning its `StopResult`.  The
second component records the coordinator calls made. -/
def sessionsStopExecute (agentSessionKey : Option String)
    (resolveKey : String → String) (stop : StopCall → StopResult)
    (runIdParam : Option String) : ToolPayload × List StopCall :=
  let runId := match runIdParam with | none => "" | some s => s
  if runId = "" then
    (⟨"error", none, some "runId is required"⟩, [])
  else
    let requesterSessionKey :=
      match agentSessionKey with
      | some k => if k = "" then none else some (resolveKey k)
      | none => none
    let call : StopCall := ⟨runId, requesterSessionKey⟩
    let result := stop call
    if result.stopped then
      (⟨"stopped", some runId, none⟩, [call])
    else
      (⟨result.reason.getD "not_found", some runId, none⟩, [call])

/-- Response emitted by the `agent.abort` gateway handler: either a
protocol-level error frame with a code, or a success payload
`{ok: true, runId, stopped, reason?}`. -/
inductive AbortRpcResponse where
  | protocolError (code : String)
  | success (runId : String) (stopped : Bool) (reason : Option String)
deriving DecidableEq

/-- Modelled from the spec: the `agent.abort` RPC handler in
`src/gateway/server-methods/agent.ts` (file absent from the snapshot;
behaviour fixed by the spec's RPC-adapter section, `agentstop.md` and
`agent-abort.test.ts`): validate `{runId}` as a required non-empty
string — failure responds with a protocol error of code
`INVALID_REQUEST` without invoking the coordinator; otherwise invoke
`stopSubagentByRunId` (no `requesterSessionKey` is threaded through)
and respond `ok: true` with the request's `runId` echoed and the
coordinator's `stopped`/`reason` passed through verbatim.  The second
component records the `runId` of each coordinator invocation. -/
def agentAbortHandler (runIdParam : Option String)
    (coordinator : String → StopResult) : AbortRpcResponse × List String :=
  match runIdParam with
  | none => (AbortRpcResponse.protocolError "INVALID_REQUEST", [])
  | some rid =>
    if rid = "" then (AbortRpcResponse.protocolError "INVALID_REQUEST", [])
    else
      let res := coordinator rid
      (AbortRpcResponse.success rid res.stopped res.reason, [rid])

/-- Verbosity tiers of the TUI session (`verboseLevel`): `off`
(lowest), `on` (informative), `full` (highest). -/
inductive Verbosity where
  | off
  | on
  | full
deriving DecidableEq

/-- One item of rendered tool/chat content (shape of the
`{type, text}` objects in the tests). -/
structure ContentItem where
  itemType : String
  text : String
deriving DecidableEq

/-- Chat-turn event states carried by `ChatEvent.state`.  `delta` is
the only non-terminal state; `final`, `aborted` and `errored` are
terminal. -/
inductive ChatState where
  | delta
  | final
  | aborted
  | errored
deriving DecidableEq

/-- A chat-turn event for a session (`ChatEvent` in
`src/tui/tui-types.ts`). -/
structure ChatEvent where
  runId : String
  sessionKey : String
  chatState : ChatState
  msgContent : List ContentItem
deriving DecidableEq

/-- Payload of an agent-activity event: tool stream phases
(start/update/result) or lifecycle stream phases. -/
inductive AgentEventData where
  | toolStart (toolCallId name : String) (args : Option String)
  | toolUpdate (toolCallId name : String) (updContent : List ContentItem) (isError : Bool)
  | toolResult (toolCallId name : String) (resContent : List ContentItem) (isError : Bool)
  | lifecycleStart
  | lifecycleEnd
  | lifecycleOther (phase : String)
deriving DecidableEq

/-- An agent-activity event keyed by run id (`AgentEvent` in
`src/tui/tui-types.ts`). -/
structure AgentEvent where
  runId : String
  data : AgentEventData
deriving DecidableEq

/-- Reconciler state the event handlers read and mutate: the displayed
session key, the bound active run id, the local-run-id set, the
session verbosity tier, and the tool-status hold deadline (absent when
no hold is active). -/
structure TuiState where
  currentSessionKey : String
  activeChatRunId : Option String
  localRunIds : List String
  verboseLevel : Verbosity
  toolHoldUntil : Option Nat
deriving DecidableEq

/-- Calls the reconciler makes on its collaborators: the rendering
collaborator (chat log), the debounced status setter, the
render-request collaborator, the history-refresh collaborator, and
the arming of the status-fallback timer. -/
inductive TuiEffect where
  | startToolE (toolCallId name : String) (args : Option String)
  | updateToolResultE (toolCallId : String) (content : List ContentItem) (isError : Bool)
  | updateAssistantE (runId : String) (content : List ContentItem)
  | finalizeAssistantE (runId : String) (content : List ContentItem)
  | setActivityStatusE (status : String)
  | requestRenderE
  | loadHistoryE
  | armStatusTimerE (delayMs : Nat)
deriving DecidableEq

/-- Modelled from the spec: minimum time a tool-status hold stays
active (`MIN_TOOL_STATUS_MS`; the concrete value is not pinned down by
the claims). -/
def MIN_TOOL_STATUS_MS : Nat := 1000

/-- Whether a tool-status hold is active at the given time. -/
def holdActive (st : TuiState) (now : Nat) : Bool :=
  match st.toolHoldUntil with
  | some t => decide (now < t)
  | none => false

/-- Modelled from the spec: the transient "tool emoji" status label
requested while a tool runs (the tests only constrain it to end in an
ellipsis and to differ from the plain statuses). -/
def toolEmojiStatus (name : String) : String :=
  name ++ "…"

/-- Modelled from the spec: the status each chat state requests —
`delta` requests `streaming`; each terminal state requests its own
status. -/
def chatStatusName : ChatState → String
  | ChatState.delta => "streaming"
  | ChatState.final => "final"
  | ChatState.aborted => "aborted"
  | ChatState.errored => "error"

/-- Modelled from the spec: `handleChatEvent` in
`src/tui/tui-event-handlers.ts` (file absent from the snapshot;
behaviour fixed by the spec's reconciler section and
`tui-event-handlers.test.ts`): an event for another session is ignored
entirely; otherwise the first event binds `activeChatRunId`
(first-writer-binds); `delta` forwards content and requests
`streaming` unless a tool hold is active; terminal states request
their own status unconditionally and clear the hold; a `final` for a
run not in the local-run-id set triggers one history refresh; every
accepted event triggers exactly one render request. -/
def handleChatEvent (st : TuiState) (now : Nat) (e : ChatEvent) :
    TuiState × List TuiEffect :=
  if e.sessionKey = st.currentSessionKey then
    let st1 := match st.activeChatRunId with
      | none => { st with activeChatRunId := some e.runId }
      | some _ => st
    match e.chatState with
    | ChatState.delta =>
      let statusEff :=
        if holdActive st1 now then [] else [TuiEffect.setActivityStatusE "streaming"]
      (st1, TuiEffect.updateAssistantE e.runId e.msgContent :: statusEff
              ++ [TuiEffect.requestRenderE])
    | ChatState.final =>
      let refresh :=
        if st1.localRunIds.contains e.runId then [] else [TuiEffect.loadHistoryE]
      ({ st1 with toolHoldUntil := none },
       TuiEffect.finalizeAssistantE e.runId e.msgContent ::
         TuiEffect.setActivityStatusE (chatStatusName ChatState.final) ::
           refresh ++ [TuiEffect.requestRenderE])
    | ChatState.aborted =>
      ({ st1 with toolHoldUntil := none },
       [TuiEffect.setActivityStatusE (chatStatusName ChatState.aborted),
        TuiEffect.requestRenderE])
    | ChatState.errored =>
      ({ st1 with toolHoldUntil := none },
       [TuiEffect.setActivityStatusE (chatStatusName ChatState.errored),
        TuiEffect.requestRenderE])
  else (st, [])

/-- Modelled from the spec: `handleAgentEvent` in
`src/tui/tui-event-handlers.ts` (file absent from the snapshot;
behaviour fixed by the spec's reconciler section and
`tui-event-handlers.test.ts`): an event whose run id does not equal
the bound `activeChatRunId` is dropped with no side effects.  A tool
`start` sets the hold, forwards a tool-start marker to the chat log
unless verbosity is `off`, and requests the tool-emoji status.  A tool
`update` forwards its content only at the `full` tier (the tests pin a
single `updateToolResult` call for an update/result pair at the
informative tier).  A tool `result` forwards the result with content
redacted to the empty sequence unless verbosity is `full`, preserving
the error flag, and arms the status-fallback timer for the remaining
hold time.  A lifecycle `start` requests `running` unless a hold is
active.  Every accepted event triggers exactly one render request. -/
def handleAgentEvent (st : TuiState) (now : Nat) (e : AgentEvent) :
    TuiState × List TuiEffect :=
  if st.activeChatRunId = some e.runId then
    match e.data with
    | AgentEventData.toolStart id name args =>
      let marker :=
        if st.verboseLevel = Verbosity.off then []
        else [TuiEffect.startToolE id name args]
      ({ st with toolHoldUntil := some (now + MIN_TOOL_STATUS_MS) },
       marker ++ [TuiEffect.setActivityStatusE (toolEmojiStatus name),
                  TuiEffect.requestRenderE])
    | AgentEventData.toolUpdate id _ c err =>
      let fwd :=
        if st.verboseLevel = Verbosity.full then [TuiEffect.updateToolResultE id c err]
        else []
      (st, fwd ++ [TuiEffect.requestRenderE])
    | AgentEventData.toolResult id _ c err =>
      let content := if st.verboseLevel = Verbosity.full then c else []
      let timer := match st.toolHoldUntil with
        | some t => if now < t then [TuiEffect.armStatusTimerE (t - now)] else []
        | none => []
      (st, TuiEffect.updateToolResultE id content err :: timer
             ++ [TuiEffect.requestRenderE])
    | AgentEventData.lifecycleStart =>
      let statusEff :=
        if holdActive st now then [] else [TuiEffect.setActivityStatusE "running"]
      (st, statusEff ++ [TuiEffect.requestRenderE])
    | AgentEventData.lifecycleEnd => (st, [TuiEffect.requestRenderE])
    | AgentEventData.lifecycleOther _ => (st, [TuiEffect.requestRenderE])
  else (st, [])

/-- Tool arguments as seen by the prune-protect handler: the optional
`path` and `file_path` string entries of the args record
(`src/agents/prune-protect-handler.ts`). -/
structure ToolArgs where
  path : Option String
  file_path : Option String
deriving DecidableEq

/-- A persisted agent message, reduced to an opaque payload plus the
`pruneProtect` tag the handler may add
(`{...event.message, pruneProtect: true}`). -/
structure AgentMessage where
  payload : String
  pruneProtect : Bool
deriving DecidableEq

/-- The effective path argument: `toolArgs?.path ?? toolArgs?.file_path`
(JavaScript nullish coalescing: `file_path` is consulted only when
`path` is absent, not when it is the empty string). -/
def effectivePath (toolArgs : Option ToolArgs) : Option String :=
  match toolArgs with
  | none => none
  | some a =>
    match a.path with
    | some p => some p
    | none => a.file_path

/-- Lowercased character sequence of a string (explicit list form so
that concrete instances evaluate by kernel reduction). -/
def lowerChars (s : String) : List Char :=
  s.data.map Char.toLower

/-- Whether the single protected pattern `SKILL.md$` (case-insensitive)
matches the path: the lowercased path ends with `skill.md`. -/
def matchesProtectedPath (p : String) : Bool :=
  List.isSuffixOf (lowerChars "SKILL.md") (lowerChars p)

/-- Embedding of `isProtectedRead` from
`src/agents/prune-protect-handler.ts`: the tool must be `read`, the
effective path must be present and truthy (non-empty), and it must
match the protected pattern. -/
def isProtectedRead (toolName : Option String) (toolArgs : Option ToolArgs) : Bool :=
  if toolName ≠ some "read" then false
  else
    match effectivePath toolArgs with
    | none => false
    | some p => if p = "" then false else matchesProtectedPath p

/-- The `tool_result_persist` event the handler receives
(`PluginHookToolResultPersistEvent`), reduced to the fields the
handler reads. -/
structure PersistEvent where
  toolName : Option String
  toolArgs : Option ToolArgs
  message : AgentMessage
  isSynthetic : Bool
deriving DecidableEq

/-- The hook context (`PluginHookToolResultPersistContext`), reduced
to the fields the handler reads. -/
structure PersistCtx where
  toolName : Option String
  toolArgs : Option ToolArgs
deriving DecidableEq

/-- One step of the stateful handler returned by
`createPruneProtectHandler`: given the current `skillReadActive` flag,
the event and the context, it returns the new flag and the optional
replacement message (the source returns `{message}` or `undefined`).
Embedded line by line from `src/agents/prune-protect-handler.ts`:
synthetic results are skipped; a protected read tags the message and
activates turn protection; while active, any `read` result is tagged;
otherwise nothing is returned. -/
def pruneProtectStep (skillReadActive : Bool) (event : PersistEvent)
    (ctx : PersistCtx) : Bool × Option AgentMessage :=
  if event.isSynthetic then (skillReadActive, none)
  else if isProtectedRead ctx.toolName event.toolArgs then
    (true, some { event.message with pruneProtect := true })
  else if skillReadActive = true ∧ ctx.toolName = some "read" then
    (skillReadActive, some { event.message with pruneProtect := true })
  else (skillReadActive, none)

/-- Embedding of `resetTurn` from `createPruneProtectHandler`: clears
the `skillReadActive` flag. -/
def resetTurn (_ : Bool) : Bool := false

/-- A `SessionManager` instance reduced to what `guardSessionManager`
observes and mutates: whether a `flushPendingToolResults` function is
already exposed on the instance, how many times a tool-result guard
(with its persistence transform) has been installed on it, and the
rest of the instance kept opaque (structural equality stands in for
object identity). -/
structure SessionManager where
  hasFlushPendingToolResults : Bool
  guardsInstalled : Nat
  core : String
deriving DecidableEq

/-- Embedding of `guardSessionManager` from the unnamed source file
(`src/unnamed/part_000`): if the instance already exposes
`flushPendingToolResults`, it is returned unchanged immediately;
otherwise one tool-result guard (with the prune-protect transform) is
installed via `installSessionToolResultGuard` and the flush method is
attached to the instance. -/
def guardSessionManager (sm : SessionManager) : SessionManager :=
  if sm.hasFlushPendingToolResults then sm
  else { sm with hasFlushPendingToolResults := true,
                 guardsInstalled := sm.guardsInstalled + 1 }

/-- Sample run record used to instantiate the stop-coordinator
theorems on concrete inputs (values taken from the abort tests). -/
def sampleRecord : SubagentRunRecord :=
  { runId := "run-1"
    childSessionKey := "agent:main:subagent:child-1"
    requesterSessionKey := "telegram:owner"
    requesterDisplayKey := "telegram:owner"
    task := "do work"
    cleanup := "keep"
    createdAt := 10
    endedAt := none }

/-- Sample registry holding only `sampleRecord`. -/
def sampleRegistry : Registry :=
  fun k => if k = "run-1" then some sampleRecord else none

/-- Sample session store binding the sample child session key to the
engine session id `session-child`. -/
def sampleStore : String → Option String :=
  fun k => if k = "agent:main:subagent:child-1" then some "session-child" else none

/-- Sample registry holding only an already-ended record. -/
def endedRegistry : Registry :=
  fun k => if k = "run-9" then some { sampleRecord with runId := "run-9", endedAt := some 3 } else none

/-- Claim C1: for a registered run with `endedAt` unset, a non-empty
child session key and a matching or omitted requester key,
`stopSubagentByRunId` clears the child session's queued work, calls
the abort collaborator exactly once with the engine session id
resolved from the store, sets the record's `endedAt`, and returns
`stopped: true`; a second call with the same run id afterwards returns
`stopped: false` with reason `already_ended` and performs no further
side effects. -/
theorem c1_stop_success (reg : Registry) (store : String → Option String)
    (now now2 : Nat) (runId : String) (req req2 : Option String)
    (r : SubagentRunRecord)
    (hget : getSubagentRun reg runId = some r)
    (hended : r.endedAt = none)
    (hchild : r.childSessionKey ≠ "")
    (hreq : req = none ∨ req = some r.requesterSessionKey) :
    (stopSubagentByRunId reg store now runId req).result = ⟨true, none⟩ ∧
    (stopSubagentByRunId reg store now runId req).effects =
      [StopEffect.clearQueues r.childSessionKey,
       StopEffect.abortRun (store r.childSessionKey)] ∧
    getSubagentRun (stopSubagentByRunId reg store now runId req).registry runId =
      some { r with endedAt := some now } ∧
    (stopSubagentByRunId (stopSubagentByRunId reg store now runId req).registry
        store now2 runId req2).result = ⟨false, some "already_ended"⟩ ∧
    (stopSubagentByRunId (stopSubagentByRunId reg store now runId req).registry
        store now2 runId req2).effects = [] := by
  have houtcome : stopSubagentByRunId reg store now runId req =
      ⟨⟨true, none⟩,
       [StopEffect.clearQueues r.childSessionKey,
        StopEffect.abortRun (store r.childSessionKey)],
       markEnded reg runId now⟩ := by
    rcases hreq with h | h <;> subst h <;>
      simp [stopSubagentByRunId, hget, hended, hchild]
  have hmark : getSubagentRun (markEnded reg runId now) runId =
      some { r with endedAt := some now } := by
    unfold getSubagentRun at hget
    simp [getSubagentRun, markEnded, hget, hended]
  have hsecond : stopSubagentByRunId (markEnded reg runId now) store now2 runId req2 =
      ⟨⟨false, some "already_ended"⟩, [], markEnded reg runId now⟩ := by
    simp [stopSubagentByRunId, getSubagentRun] at hmark ⊢
    simp [hmark]
  rw [houtcome]
  exact ⟨rfl, rfl, hmark, by rw [hsecond], by rw [hsecond]⟩

/-- Witness for C1 at the concrete sample inputs. -/
theorem c1_stop_success_witness :
    (stopSubagentByRunId sampleRegistry sampleStore 5 "run-1" none).result = ⟨true, none⟩ ∧
    (stopSubagentByRunId sampleRegistry sampleStore 5 "run-1" none).effects =
      [StopEffect.clearQueues sampleRecord.childSessionKey,
       StopEffect.abortRun (sampleStore sampleRecord.childSessionKey)] ∧
    getSubagentRun (stopSubagentByRunId sampleRegistry sampleStore 5 "run-1" none).registry "run-1" =
      some { sampleRecord with endedAt := some 5 } ∧
    (stopSubagentByRunId (stopSubagentByRunId sampleRegistry sampleStore 5 "run-1" none).registry
        sampleStore 7 "run-1" (some "telegram:owner")).result = ⟨false, some "already_ended"⟩ ∧
    (stopSubagentByRunId (stopSubagentByRunId sampleRegistry sampleStore 5 "run-1" none).registry
        sampleStore 7 "run-1" (some "telegram:owner")).effects = [] :=
  c1_stop_success sampleRegistry sampleStore 5 7 "run-1" none (some "telegram:owner")
    sampleRecord (by decide) (by decide) (by decide) (Or.inl rfl)

/-- Claim C2: for every run record whose `endedAt` is set,
`stopSubagentByRunId` returns `stopped: false` with reason
`already_ended` regardless of the requester key argument, performs no
collaborator side effects, and leaves the registry unchanged. -/
theorem c2_already_ended (reg : Registry) (store : String → Option String)
    (now : Nat) (runId : String) (req : Option String)
    (r : SubagentRunRecord) (t : Nat)
    (hget : getSubagentRun reg runId = some r)
    (hended : r.endedAt = some t) :
    stopSubagentByRunId reg store now runId req =
      ⟨⟨false, some "already_ended"⟩, [], reg⟩ := by
  simp [stopSubagentByRunId, hget, hended]

/-- Witness for C2 at the concrete sample inputs, with and without a
requester key. -/
theorem c2_already_ended_witness :
    stopSubagentByRunId endedRegistry sampleStore 20 "run-9" (some "telegram:intruder") =
      ⟨⟨false, some "already_ended"⟩, [], endedRegistry⟩ ∧
    stopSubagentByRunId endedRegistry sampleStore 20 "run-9" none =
      ⟨⟨false, some "already_ended"⟩, [], endedRegistry⟩ :=
  ⟨c2_already_ended endedRegistry sampleStore 20 "run-9" (some "telegram:intruder")
      { sampleRecord with runId := "run-9", endedAt := some 3 } 3 (by decide) rfl,
   c2_already_ended endedRegistry sampleStore 20 "run-9" none
      { sampleRecord with runId := "run-9", endedAt := some 3 } 3 (by decide) rfl⟩

/-- Claim C3: for a live run record, a provided requester key that
differs from the record's requester key makes `stopSubagentByRunId`
return `stopped: false` with reason `forbidden`, with no side effects
and the registry unchanged; a matching or omitted requester key
proceeds past the ownership check (the outcome is never
`forbidden`). -/
theorem c3_forbidden (reg : Registry) (store : String → Option String)
    (now : Nat) (runId : String) (k : String) (r : SubagentRunRecord)
    (hget : getSubagentRun reg runId = some r)
    (hended : r.endedAt = none)
    (hmismatch : k ≠ r.requesterSessionKey) :
    stopSubagentByRunId reg store now runId (some k) =
      ⟨⟨false, some "forbidden"⟩, [], reg⟩ ∧
    (∀ req : Option String, req = none ∨ req = some r.requesterSessionKey →
      (stopSubagentByRunId reg store now runId req).result.reason ≠ some "forbidden") := by
  constructor
  · simp [stopSubagentByRunId, hget, hended, hmismatch]
  · intro req hreq
    rcases hreq with h | h <;> subst h <;>
      by_cases hchild : r.childSessionKey = "" <;>
        simp [stopSubagentByRunId, hget, hended, hchild]

/-- Witness for C3 at the concrete sample inputs: a mismatching
requester is refused with no side effects, while an omitted requester
is not refused as forbidden. -/
theorem c3_forbidden_witness :
    stopSubagentByRunId sampleRegistry sampleStore 5 "run-1" (some "telegram:someone-else") =
      ⟨⟨false, some "forbidden"⟩, [], sampleRegistry⟩ ∧
    (stopSubagentByRunId sampleRegistry sampleStore 5 "run-1" none).result.reason ≠
      some "forbidden" :=
  ⟨(c3_forbidden sampleRegistry sampleStore 5 "run-1" "telegram:someone-else"
      sampleRecord (by decide) (by decide) (by decide)).1,
   (c3_forbidden sampleRegistry sampleStore 5 "run-1" "telegram:someone-else"
      sampleRecord (by decide) (by decide) (by decide)).2 none (Or.inl rfl)⟩

/-- Identity stand-in for `resolveInternalSessionKey` at concrete
instances. -/
def idResolve : String → String := fun s => s

/-- Coordinator stub that always reports a successful stop, for
concrete instances of the adapter theorems. -/
def constStopOk : StopCall → StopResult := fun _ => ⟨true, none⟩

/-- Claim C4 counterexample: the claim says every `execute` invocation
with a non-empty `runId` passes a defined `requesterSessionKey` to
`stopSubagentByRunId`, but a tool created without an
`agentSessionKey` option (permitted by the constructor signature)
invokes the coordinator with `requesterSessionKey` undefined, so the
stop is not ownership-checked. -/
theorem c4_counterexample :
    (sessionsStopExecute none idResolve constStopOk (some "run-abc")).2 =
      [⟨"run-abc", none⟩] ∧
    ¬ (∀ c ∈ (sessionsStopExecute none idResolve constStopOk (some "run-abc")).2,
        c.requesterSessionKey ≠ none) := by
  refine ⟨by decide, fun h => ?_⟩
  exact h ⟨"run-abc", none⟩ (by decide) rfl

/-- Claim C4 (amended): when the tool is created with a non-empty
`agentSessionKey`, every `execute` invocation with a non-empty
`runId` passes the defined resolved internal session key as
`requesterSessionKey` to `stopSubagentByRunId`; with a missing or
empty `runId` it returns a payload with status `error` and never
calls `stopSubagentByRunId`. -/
theorem c4_tool_requester_key (k : String) (hk : k ≠ "")
    (resolveKey : String → String) (stop : StopCall → StopResult)
    (runIdParam : Option String) :
    ((runIdParam = none ∨ runIdParam = some "") →
      (sessionsStopExecute (some k) resolveKey stop runIdParam).1.status = "error" ∧
      (sessionsStopExecute (some k) resolveKey stop runIdParam).2 = []) ∧
    (∀ s, runIdParam = some s → s ≠ "" →
      (sessionsStopExecute (some k) resolveKey stop runIdParam).2 =
        [⟨s, some (resolveKey k)⟩]) := by
  constructor
  · rintro (h | h) <;> subst h <;> simp [sessionsStopExecute]
  · rintro s rfl hs
    simp only [sessionsStopExecute, if_neg hs, if_neg hk]
    split <;> rfl

/-- Witness for the amended C4 at concrete inputs: a tool created with
`agentSessionKey` passes the resolved key, and a missing `runId`
yields the error payload with no coordinator call. -/
theorem c4_tool_requester_key_witness :
    (sessionsStopExecute (some "agent:main:main") idResolve constStopOk (some "run-abc")).2 =
      [⟨"run-abc", some (idResolve "agent:main:main")⟩] ∧
    (sessionsStopExecute (some "agent:main:main") idResolve constStopOk none).1.status =
      "error" ∧
    (sessionsStopExecute (some "agent:main:main") idResolve constStopOk none).2 = [] :=
  ⟨(c4_tool_requester_key "agent:main:main" (by decide) idResolve constStopOk
      (some "run-abc")).2 "run-abc" rfl (by decide),
   ((c4_tool_requester_key "agent:main:main" (by decide) idResolve constStopOk none).1
      (Or.inl rfl)).1,
   ((c4_tool_requester_key "agent:main:main" (by decide) idResolve constStopOk none).1
      (Or.inl rfl)).2⟩

/-- Coordinator stub for the RPC handler instances, keyed by run
id. -/
def rpcStopStub : String → StopResult :=
  fun rid => if rid = "run-abc" then ⟨true, none⟩ else ⟨false, some "not_found"⟩

/-- Claim C5: the `agent.abort` RPC handler responds with a protocol
error of code `INVALID_REQUEST` and never invokes
`stopSubagentByRunId` when `runId` is missing or the empty string;
otherwise it invokes the coordinator once and responds `ok: true`
with the request's `runId` echoed and the coordinator's `stopped` and
`reason` passed through verbatim. -/
theorem c5_agent_abort (coordinator : String → StopResult) :
    agentAbortHandler none coordinator =
      (AbortRpcResponse.protocolError "INVALID_REQUEST", []) ∧
    agentAbortHandler (some "") coordinator =
      (AbortRpcResponse.protocolError "INVALID_REQUEST", []) ∧
    (∀ s, s ≠ "" →
      agentAbortHandler (some s) coordinator =
        (AbortRpcResponse.success s (coordinator s).stopped (coordinator s).reason, [s])) := by
  refine ⟨rfl, by simp [agentAbortHandler], fun s hs => by simp [agentAbortHandler, hs]⟩

/-- Witness for C5 at concrete inputs. -/
theorem c5_agent_abort_witness :
    agentAbortHandler none rpcStopStub =
      (AbortRpcResponse.protocolError "INVALID_REQUEST", []) ∧
    agentAbortHandler (some "") rpcStopStub =
      (AbortRpcResponse.protocolError "INVALID_REQUEST", []) ∧
    agentAbortHandler (some "run-abc") rpcStopStub =
      (AbortRpcResponse.success "run-abc" (rpcStopStub "run-abc").stopped
        (rpcStopStub "run-abc").reason, ["run-abc"]) :=
  ⟨(c5_agent_abort rpcStopStub).1, (c5_agent_abort rpcStopStub).2.1,
   (c5_agent_abort rpcStopStub).2.2 "run-abc" (by decide)⟩

/-- Concrete reconciler state with an active tool-status hold, for
the hold-precedence instances. -/
def holdState : TuiState :=
  ⟨"agent:main:main", some "run-1", [], Verbosity.on, some 100⟩

/-- Concrete chat delta event for the bound run. -/
def deltaEvt : ChatEvent :=
  ⟨"run-1", "agent:main:main", ChatState.delta, [⟨"text", "hello"⟩]⟩

/-- Concrete lifecycle-start event for the bound run. -/
def lifecycleStartEvt : AgentEvent := ⟨"run-1", AgentEventData.lifecycleStart⟩

/-- Concrete chat aborted event for the bound run. -/
def abortedEvt : ChatEvent :=
  ⟨"run-1", "agent:main:main", ChatState.aborted, []⟩

/-- Claim C6: while a tool-status hold is active, a chat delta event
never requests status `streaming` and a lifecycle start event never
requests status `running`; a terminal `aborted` chat event always
requests status `aborted` and clears the hold, whatever the hold
state. -/
theorem c6_hold_precedence (st : TuiState) (now : Nat) :
    (∀ e : ChatEvent, holdActive st now = true → e.chatState = ChatState.delta →
      TuiEffect.setActivityStatusE "streaming" ∉ (handleChatEvent st now e).2) ∧
    (∀ e : AgentEvent, holdActive st now = true → e.data = AgentEventData.lifecycleStart →
      TuiEffect.setActivityStatusE "running" ∉ (handleAgentEvent st now e).2) ∧
    (∀ e : ChatEvent, e.sessionKey = st.currentSessionKey →
      e.chatState = ChatState.aborted →
      TuiEffect.setActivityStatusE "aborted" ∈ (handleChatEvent st now e).2 ∧
      (handleChatEvent st now e).1.toolHoldUntil = none) := by
  refine ⟨?_, ?_, ?_⟩
  · intro e hhold hdelta
    by_cases hsk : e.sessionKey = st.currentSessionKey
    · have h1 : holdActive { st with activeChatRunId := some e.runId } now = true := by
        simpa [holdActive] using hhold
      cases hac : st.activeChatRunId with
      | none => simp [handleChatEvent, hsk, hdelta, hac, h1]
      | some a => simp [handleChatEvent, hsk, hdelta, hac, hhold]
    · simp [handleChatEvent, hsk]
  · intro e hhold hdata
    by_cases hrun : st.activeChatRunId = some e.runId
    · simp [handleAgentEvent, hrun, hdata, hhold]
    · simp [handleAgentEvent, hrun]
  · intro e hsk haborted
    cases hac : st.activeChatRunId with
    | none =>
      constructor <;> simp [handleChatEvent, hsk, haborted, hac, chatStatusName]
    | some a =>
      constructor <;> simp [handleChatEvent, hsk, haborted, hac, chatStatusName]

/-- Witness for C6 at concrete inputs: hold active at time 0 with
deadline 100. -/
theorem c6_hold_precedence_witness :
    TuiEffect.setActivityStatusE "streaming" ∉ (handleChatEvent holdState 0 deltaEvt).2 ∧
    TuiEffect.setActivityStatusE "running" ∉
      (handleAgentEvent holdState 0 lifecycleStartEvt).2 ∧
    TuiEffect.setActivityStatusE "aborted" ∈ (handleChatEvent holdState 0 abortedEvt).2 ∧
    (handleChatEvent holdState 0 abortedEvt).1.toolHoldUntil = none :=
  ⟨(c6_hold_precedence holdState 0).1 deltaEvt (by decide) rfl,
   (c6_hold_precedence holdState 0).2.1 lifecycleStartEvt (by decide) rfl,
   ((c6_hold_precedence holdState 0).2.2 abortedEvt rfl rfl).1,
   ((c6_hold_precedence holdState 0).2.2 abortedEvt rfl rfl).2⟩

/-- Claim C7: an agent-activity event whose run id does not equal the
bound `activeChatRunId` (including when no binding exists) is dropped:
no chat-log calls, no render request, no state mutation. -/
theorem c7_unmatched_event_dropped (st : TuiState) (now : Nat) (e : AgentEvent)
    (h : st.activeChatRunId ≠ some e.runId) :
    handleAgentEvent st now e = (st, []) := by
  simp [handleAgentEvent, h]

/-- Witness for C7: a tool event for a different run than the bound
one, and one arriving when no binding exists. -/
theorem c7_unmatched_event_dropped_witness :
    handleAgentEvent holdState 0
      ⟨"run-2", AgentEventData.toolStart "tc1" "exec" none⟩ = (holdState, []) ∧
    handleAgentEvent ⟨"agent:main:main", none, [], Verbosity.on, none⟩ 0
      ⟨"run-1", AgentEventData.toolStart "tc1" "exec" none⟩ =
      (⟨"agent:main:main", none, [], Verbosity.on, none⟩, []) :=
  ⟨c7_unmatched_event_dropped holdState 0
      ⟨"run-2", AgentEventData.toolStart "tc1" "exec" none⟩ (by decide),
   c7_unmatched_event_dropped ⟨"agent:main:main", none, [], Verbosity.on, none⟩ 0
      ⟨"run-1", AgentEventData.toolStart "tc1" "exec" none⟩ (by decide)⟩

/-- Concrete reconciler state at the informative (non-full) verbosity
tier with the run bound, mirroring the omits-tool-output test. -/
def onTierState : TuiState :=
  ⟨"agent:main:main", some "run-123", [], Verbosity.on, none⟩

/-- Concrete tool update event carrying non-empty content. -/
def updSecretEvt : AgentEvent :=
  ⟨"run-123", AgentEventData.toolUpdate "tc-on" "session_status" [⟨"text", "secret"⟩] false⟩

/-- Claim C8 counterexample: at the informative (below `full`) tier an
accepted tool update event forwards nothing at all to the rendering
collaborator — its only effect is the render request — rather than
forwarding the result with content replaced by an empty sequence as
the claim states for every update or result event. -/
theorem c8_counterexample :
    (handleAgentEvent onTierState 0 updSecretEvt).2 = [TuiEffect.requestRenderE] ∧
    TuiEffect.updateToolResultE "tc-on" [] false ∉
      (handleAgentEvent onTierState 0 updSecretEvt).2 := by
  refine ⟨by decide, by decide⟩

/-- Claim C8 (amended): for every accepted tool result event at a
verbosity tier below `full`, the reconciler forwards exactly one
result to the rendering collaborator, with its content replaced by the
empty sequence and the error flag preserved unchanged, and no effect
carries the original content; an accepted tool update event at those
tiers forwards nothing to the rendering collaborator, so the original
content never reaches it. -/
theorem c8_result_redaction (st : TuiState) (now : Nat)
    (runId id name : String) (c : List ContentItem) (err : Bool)
    (hacc : st.activeChatRunId = some runId)
    (hv : st.verboseLevel ≠ Verbosity.full) :
    ((handleAgentEvent st now ⟨runId, AgentEventData.toolResult id name c err⟩).2.countP
        (fun eff => match eff with
          | TuiEffect.updateToolResultE _ _ _ => true
          | _ => false) = 1) ∧
    TuiEffect.updateToolResultE id [] err ∈
      (handleAgentEvent st now ⟨runId, AgentEventData.toolResult id name c err⟩).2 ∧
    (∀ id2 c2 err2, TuiEffect.updateToolResultE id2 c2 err2 ∈
        (handleAgentEvent st now ⟨runId, AgentEventData.toolResult id name c err⟩).2 →
      c2 = [] ∧ err2 = err) ∧
    (handleAgentEvent st now ⟨runId, AgentEventData.toolUpdate id name c err⟩).2 =
      [TuiEffect.requestRenderE] := by
  have heff : (handleAgentEvent st now ⟨runId, AgentEventData.toolResult id name c err⟩).2 =
      TuiEffect.updateToolResultE id [] err ::
        ((match st.toolHoldUntil with
          | some t => if now < t then [TuiEffect.armStatusTimerE (t - now)] else []
          | none => []) ++ [TuiEffect.requestRenderE]) := by
    simp [handleAgentEvent, hacc, hv]
  refine ⟨?_, ?_, ?_, by simp [handleAgentEvent, hacc, hv]⟩
  · rw [heff]
    rcases htm : st.toolHoldUntil with _ | t
    · simp [List.countP_cons]
    · by_cases hlt : now < t <;> simp [hlt, List.countP_cons]
  · rw [heff]; exact List.mem_cons_self _ _
  · intro id2 c2 err2 hmem
    rw [heff] at hmem
    rcases htm : st.toolHoldUntil with _ | t <;> rw [htm] at hmem
    · simp at hmem
      exact ⟨hmem.2.1, hmem.2.2⟩
    · by_cases hlt : now < t <;> simp [hlt] at hmem <;>
        exact ⟨hmem.2.1, hmem.2.2⟩

/-- Witness for the amended C8 at concrete inputs. -/
theorem c8_result_redaction_witness :
    TuiEffect.updateToolResultE "tc-on" [] false ∈
      (handleAgentEvent onTierState 0
        ⟨"run-123", AgentEventData.toolResult "tc-on" "session_status"
          [⟨"text", "secret"⟩] false⟩).2 ∧
    (handleAgentEvent onTierState 0
        ⟨"run-123", AgentEventData.toolUpdate "tc-on" "session_status"
          [⟨"text", "secret"⟩] false⟩).2 = [TuiEffect.requestRenderE] :=
  ⟨(c8_result_redaction onTierState 0 "run-123" "tc-on" "session_status"
      [⟨"text", "secret"⟩] false rfl (by decide)).2.1,
   (c8_result_redaction onTierState 0 "run-123" "tc-on" "session_status"
      [⟨"text", "secret"⟩] false rfl (by decide)).2.2.2⟩

/-- Claim C9: a non-synthetic `read` tool result whose effective path
(`path` or `file_path`) ends in `SKILL.md` case-insensitively is
returned tagged `pruneProtect: true` and activates turn protection;
while the protection flag is set (and it stays set across every
subsequent event) every non-synthetic `read` result is tagged
regardless of its path; results of non-`read` tools and synthetic
results are never tagged; after `resetTurn` a non-protected read is no
longer tagged. -/
theorem c9_prune_protect :
    (∀ (s : Bool) (e : PersistEvent) (ctx : PersistCtx) (p : String),
      e.isSynthetic = false → ctx.toolName = some "read" →
      effectivePath e.toolArgs = some p → p ≠ "" → matchesProtectedPath p = true →
      pruneProtectStep s e ctx = (true, some { e.message with pruneProtect := true })) ∧
    (∀ (e : PersistEvent) (ctx : PersistCtx),
      e.isSynthetic = false → ctx.toolName = some "read" →
      pruneProtectStep true e ctx =
        (true, some { e.message with pruneProtect := true })) ∧
    (∀ (e : PersistEvent) (ctx : PersistCtx), (pruneProtectStep true e ctx).1 = true) ∧
    (∀ (s : Bool) (e : PersistEvent) (ctx : PersistCtx),
      ctx.toolName ≠ some "read" → (pruneProtectStep s e ctx).2 = none) ∧
    (∀ (s : Bool) (e : PersistEvent) (ctx : PersistCtx),
      e.isSynthetic = true → pruneProtectStep s e ctx = (s, none)) ∧
    (∀ (s : Bool) (e : PersistEvent) (ctx : PersistCtx),
      e.isSynthetic = false → isProtectedRead ctx.toolName e.toolArgs = false →
      pruneProtectStep (resetTurn s) e ctx = (false, none)) := by
  refine ⟨?_, ?_, ?_, ?_, ?_, ?_⟩
  · intro s e ctx p hsyn hread hpath hp hmatch
    have hprot : isProtectedRead ctx.toolName e.toolArgs = true := by
      simp [isProtectedRead, hread, hpath, hp, hmatch]
    simp [pruneProtectStep, hsyn, hprot]
  · intro e ctx hsyn hread
    by_cases hprot : isProtectedRead ctx.toolName e.toolArgs = true <;>
      simp [pruneProtectStep, hsyn, hread, hprot]
  · intro e ctx
    by_cases hsyn : e.isSynthetic
    · simp [pruneProtectStep, hsyn]
    · by_cases hprot : isProtectedRead ctx.toolName e.toolArgs = true
      · simp [pruneProtectStep, hsyn, hprot]
      · by_cases hread : ctx.toolName = some "read" <;>
          simp [pruneProtectStep, hsyn, hprot, hread]
  · intro s e ctx hread
    have hprot : isProtectedRead ctx.toolName e.toolArgs = false := by
      simp [isProtectedRead, hread]
    by_cases hsyn : e.isSynthetic <;>
      simp [pruneProtectStep, hsyn, hprot, hread]
  · intro s e ctx hsyn
    simp [pruneProtectStep, hsyn]
  · intro s e ctx hsyn hprot
    simp [pruneProtectStep, resetTurn, hsyn, hprot]

/-- Concrete protected-read event: a non-synthetic `read` of
`/skills/deploy/SKILL.md`. -/
def skillReadEvt : PersistEvent :=
  ⟨some "read", some ⟨some "/skills/deploy/SKILL.md", none⟩, ⟨"skill body", false⟩, false⟩

/-- Context matching `skillReadEvt`. -/
def skillReadCtx : PersistCtx :=
  ⟨some "read", some ⟨some "/skills/deploy/SKILL.md", none⟩⟩

/-- Concrete non-protected read event (`/tmp/random.txt`). -/
def plainReadEvt : PersistEvent :=
  ⟨some "read", some ⟨some "/tmp/random.txt", none⟩, ⟨"random file", false⟩, false⟩

/-- Context matching `plainReadEvt`. -/
def plainReadCtx : PersistCtx :=
  ⟨some "read", some ⟨some "/tmp/random.txt", none⟩⟩

/-- Witness for C9 at concrete inputs: a SKILL.md read activates and
tags; while active a plain read is tagged; after `resetTurn` the same
plain read is not tagged. -/
theorem c9_prune_protect_witness :
    pruneProtectStep false skillReadEvt skillReadCtx =
      (true, some { skillReadEvt.message with pruneProtect := true }) ∧
    pruneProtectStep true plainReadEvt plainReadCtx =
      (true, some { plainReadEvt.message with pruneProtect := true }) ∧
    pruneProtectStep (resetTurn true) plainReadEvt plainReadCtx = (false, none) :=
  ⟨c9_prune_protect.1 false skillReadEvt skillReadCtx "/skills/deploy/SKILL.md"
      rfl rfl rfl (by decide) (by decide),
   c9_prune_protect.2.1 plainReadEvt plainReadCtx rfl rfl,
   c9_prune_protect.2.2.2.2.2 true plainReadEvt plainReadCtx rfl (by decide)⟩

/-- Claim C10: `guardSessionManager` always yields an instance
exposing `flushPendingToolResults`, and it is idempotent: a second
application returns the already-guarded instance unchanged and
installs no second guard or transform; an input that already exposes
the flush method is returned immediately unchanged. -/
theorem c10_guard_idempotent (sm : SessionManager) :
    (guardSessionManager sm).hasFlushPendingToolResults = true ∧
    guardSessionManager (guardSessionManager sm) = guardSessionManager sm ∧
    (sm.hasFlushPendingToolResults = true → guardSessionManager sm = sm) ∧
    (guardSessionManager (guardSessionManager sm)).guardsInstalled =
      (guardSessionManager sm).guardsInstalled := by
  by_cases h : sm.hasFlushPendingToolResults <;>
    simp [guardSessionManager, h]

/-- Witness for C10 at concrete instances: one unguarded and one
already guarded. -/
theorem c10_guard_idempotent_witness :
    (guardSessionManager ⟨false, 0, "core"⟩).hasFlushPendingToolResults = true ∧
    guardSessionManager (guardSessionManager ⟨false, 0, "core"⟩) =
      guardSessionManager ⟨false, 0, "core"⟩ ∧
    guardSessionManager (⟨true, 1, "core"⟩ : SessionManager) = ⟨true, 1, "core"⟩ :=
  ⟨(c10_guard_idempotent ⟨false, 0, "core"⟩).1,
   (c10_guard_idempotent ⟨false, 0, "core"⟩).2.1,
   (c10_guard_idempotent ⟨true, 1, "core"⟩).2.2.1 rfl⟩

end Moltbot
